import Mathlib

/-!
Verification of the issue-lifecycle inference engine of the
`github-issue-analysis` repository (`cycle_time.py`), as a shallow embedding.

Timestamps are modelled as integers (seconds since the epoch); durations in
days are modelled as rationals `(t₂ - t₁) / 86400`, mirroring
`(b - a).total_seconds() / (24 * 3600)` in the source.  Network fetches are
modelled as data carried on the issue record (the value the corresponding
`fetch_*` call would return).  Payloads stored in the cache are modelled by a
type parameter `Data`.
-/

namespace CycleTime

/-! ## Cache Store (`_get_cache_key`, `_save_to_cache`, `_load_from_cache`) -/

/-- One request parameter, rendered as its string form `f"{k}={v}"` uses it.
A parameter map is a list of (name, value) pairs. -/
abbrev Params := List (String × String)

/-- The order Python's `sorted(params.items())` uses: lexicographic on the
(name, value) pair, comparing names first and values on ties. -/
def paramLe (p q : String × String) : Prop :=
  p.1 < q.1 ∨ (p.1 = q.1 ∧ p.2 ≤ q.2)

instance : DecidableRel paramLe := fun p q => by
  unfold paramLe; infer_instance

instance : IsTotal (String × String) paramLe := by
  constructor
  intro p q
  rcases lt_trichotomy p.1 q.1 with h | h | h
  · exact Or.inl (Or.inl h)
  · rcases le_total p.2 q.2 with h2 | h2
    · exact Or.inl (Or.inr ⟨h, h2⟩)
    · exact Or.inr (Or.inr ⟨h.symm, h2⟩)
  · exact Or.inr (Or.inl h)

instance : IsTrans (String × String) paramLe := by
  constructor
  rintro p q r (h | ⟨h, h2⟩) (h' | ⟨h', h2'⟩)
  · exact Or.inl (lt_trans h h')
  · exact Or.inl (h' ▸ h)
  · exact Or.inl (h ▸ h')
  · exact Or.inr ⟨h.trans h', le_trans h2 h2'⟩

instance : IsAntisymm (String × String) paramLe := by
  constructor
  rintro p q (h | ⟨h, h2⟩) (h' | ⟨h', h2'⟩)
  · exact absurd (lt_trans h h') (lt_irrefl _)
  · exact absurd h (h' ▸ lt_irrefl _)
  · exact absurd h' (h ▸ lt_irrefl _)
  · exact Prod.ext h (le_antisymm h2 h2')

/-- `_get_cache_key`: sort the parameters, join them as `k=v` pairs with `&`,
and append to the URL after a `?`.  The MD5 digest taken at the end in the
source is a fixed deterministic function of this string, so it is modelled as
the identity on the key data: equality of digests is equality of key data. -/
def getCacheKey (url : String) (params : Params) : String :=
  let paramsStr : String :=
    if params.isEmpty then ""
    else String.intercalate "&"
      ((params.insertionSort paramLe).map (fun p => p.1 ++ "=" ++ p.2))
  url ++ "?" ++ paramsStr

/-- The cache maps keys to a payload together with the write (mtime)
timestamp of the cache file. -/
abbrev Cache (Data : Type) := List (String × Data × Int)

/-- `self.cache_expiry_days = 7  # 1 week` -/
def cacheExpiryDays : Int := 7

/-- Python `timedelta.days`: floor division of the total seconds by 86400.
Lean's `Int` division is Euclidean, which agrees with floor division for the
positive divisor 86400. -/
def timedeltaDays (seconds : Int) : Int := seconds / 86400

/-- `_is_cache_valid`: the entry exists and
`(datetime.now() - mtime).days < self.cache_expiry_days`. -/
def isCacheValid (now mtime : Int) : Bool :=
  timedeltaDays (now - mtime) < cacheExpiryDays

/-- `_save_to_cache`: write the pickled payload to the key's cache file,
overwriting any previous entry; the file's mtime becomes `now`. -/
def saveToCache {Data : Type} (cache : Cache Data) (key : String) (data : Data)
    (now : Int) : Cache Data :=
  (key, data, now) :: cache.filter (fun e => e.1 != key)

/-- `_load_from_cache`: return the stored payload when the entry exists and
`_is_cache_valid` holds, else `None`. -/
def loadFromCache {Data : Type} (now : Int) (cache : Cache Data)
    (key : String) : Option Data :=
  match cache.find? (fun e => e.1 == key) with
  | some (_, data, mtime) => if isCacheValid now mtime then some data else none
  | none => none

/-! ## Rate-Limited Paginating Client (`fetch_issues`) -/

/-- One element of a page returned by the issues endpoint.  GitHub lists pull
requests among issues; `is_pull_request` models the presence of the
`'pull_request'` key on the raw dict. -/
structure Item where
  id : Nat
  is_pull_request : Bool
deriving DecidableEq, Repr

/-- The `while True` page loop of `fetch_issues`.  The network is modelled by
`script`: the request for page `p` (1-based) returns `script[p-1]`, and pages
past the end of the script return the empty list.  `fuel` counts the
iterations still allowed before the `page > 500` safety break fires; the
top-level call passes `500`.  The interrupt flag is modelled as never set.
Returns the collected issues and the number of page fetches made. -/
def fetchIssuesLoop (script : List (List Item)) (limit : Option Nat) :
    Nat → Nat → List Item → Nat → List Item × Nat
  | 0, _, issues, fetches => (issues, fetches)
  | fuel + 1, page, issues, fetches =>
    let raw_batch := script.getD (page - 1) []
    let fetches := fetches + 1
    if raw_batch.isEmpty then (issues, fetches)
    else
      let filtered_batch := raw_batch.filter (fun it => !it.is_pull_request)
      let issues := issues ++ filtered_batch
      if (match limit with
          | some lim => lim != 0 && decide (lim ≤ issues.length)
          | none => false) then
        (issues.take (limit.getD 0), fetches)
      else if raw_batch.length < 100 then (issues, fetches)
      else fetchIssuesLoop script limit fuel (page + 1) issues fetches

/-- `fetch_issues`: page-based pagination starting at page 1, with the
500-page safety ceiling, the zero-items and partial-page stop conditions, and
truncation to the caller's item limit. -/
def fetchIssues (script : List (List Item)) (limit : Option Nat) :
    List Item × Nat :=
  fetchIssuesLoop script limit 500 1 [] 0

/-- A full page of 100 plain (non-pull-request) items, and smaller pages. -/
def pageOfSize (n : Nat) : List Item :=
  List.replicate n { id := 0, is_pull_request := false }

/-- The scripted response sequence of the pagination claim: pages of sizes
100, 100 and 37. -/
def scriptedPages : List (List Item) :=
  [pageOfSize 100, pageOfSize 100, pageOfSize 37]

/-! ## Issue data model -/

/-- A timeline event as consumed by the analyzer: `event['event']`,
`event['created_at']` (parsed to a timestamp) and
`event.get('label', {}).get('name')`. -/
structure TimelineEvent where
  event : String
  created_at : Int
  label_name : Option String
deriving DecidableEq, Repr

/-- A commit returned by commit search; `extract_work_start_date` reads
`commit['commit']['committer']['date']` of the first element, while
`_extract_first_commit_date` reads `commit['commit']['author']['date']` of
every element.  A missing nested field is `none` (the source's access then
raises and is swallowed, or the guard skips it). -/
structure Commit where
  committer_date : Option Int
  author_date : Option Int
deriving DecidableEq, Repr

/-- A pull request as consumed by `_extract_first_pr_date`. -/
structure PullRequest where
  created_at : Option Int
deriving DecidableEq, Repr

/-- An issue record together with the data its per-issue fetches
(`fetch_issue_events`, `fetch_commits_for_issue`,
`fetch_pull_requests_for_issue`) would return; the fetches are modelled as
reading these fields.  `labels` holds the label names
(`[label['name'] for label in issue['labels']]`).  The `project_data`
enrichment payload is omitted: it feeds only the `project_*` output fields,
which no analyzed property touches. -/
structure Issue where
  number : Int
  title : String
  created_at : Int
  closed_at : Option Int
  state : String
  assignee : Option String
  milestone : Option String
  labels : List String
  events : List TimelineEvent
  commits : List Commit
  prs : List PullRequest
deriving DecidableEq, Repr

/-- Duration in days between two timestamps:
`(b - a).total_seconds() / (24 * 3600)`. -/
def daysQ (a b : Int) : ℚ := ((b - a : Int) : ℚ) / (24 * 3600)

/-! ## Work-Start Inferencer (`extract_work_start_date`) -/

/-- The recognized in-progress label synonyms. -/
def inProgressLabelNames : List String :=
  ["in progress", "in-progress", "started", "working"]

/-- The `work_start_candidates` list gathered by `extract_work_start_date`:
the first `assigned` timeline event (only consulted when the issue has an
assignee and the events list is non-empty), the committer date of the first
commit referencing the issue (only when commit search has not been detected
unavailable, `commit_search_available is not False`), and the first timeline
event labeling the issue with an in-progress synonym (only when the events
list is non-empty). -/
def workStartCandidates (commit_search_available : Option Bool)
    (issue : Issue) : List Int :=
  let events := issue.events
  let assigned_candidates : List Int :=
    if issue.assignee.isSome && !events.isEmpty then
      match events.find? (fun e => e.event == "assigned") with
      | some e => [e.created_at]
      | none => []
    else []
  let commit_candidates : List Int :=
    if commit_search_available != some false then
      match issue.commits.head? with
      | some c =>
        match c.committer_date with
        | some d => [d]
        | none => []
      | none => []
    else []
  let label_candidates : List Int :=
    if !events.isEmpty then
      match events.find? (fun e =>
          e.event == "labeled" &&
          inProgressLabelNames.contains ((e.label_name.getD "").toLower)) with
      | some e => [e.created_at]
      | none => []
    else []
  assigned_candidates ++ commit_candidates ++ label_candidates

/-- The validity filter of `extract_work_start_date`: a candidate must be at
or after creation, and at or before closure when the issue is closed. -/
def isValidWorkStart (created_at : Int) (closed_at : Option Int)
    (d : Int) : Bool :=
  decide (created_at ≤ d) &&
    (match closed_at with
     | some c => decide (d ≤ c)
     | none => true)

/-- `extract_work_start_date`: gather the candidates, keep the valid ones,
and return their minimum, or `None` when none are valid.  The early
`self.interrupted` return is the `interrupted` parameter. -/
def extractWorkStartDate (commit_search_available : Option Bool)
    (interrupted : Bool) (issue : Issue) : Option Int :=
  if interrupted then none
  else
    let work_start_candidates := workStartCandidates commit_search_available issue
    let valid_dates := work_start_candidates.filter
      (isValidWorkStart issue.created_at issue.closed_at)
    valid_dates.min?

/-! ## Stage Segmenter (`analyze_stage_segments`) -/

/-- The `StageSegment` dataclass.  All six fields are required: in
particular `is_work_time` carries no default value. -/
structure StageSegment where
  stage_name : String
  start_time : Int
  end_time : Option Int
  duration_days : Option ℚ
  stage_type : String
  is_work_time : Bool
deriving DecidableEq, Repr

/-- Python `str.title()`: uppercase each alphabetic character that follows a
non-alphabetic one (or starts the string), lowercase the rest. -/
def pythonTitleGo : List Char → Bool → List Char
  | [], _ => []
  | c :: cs, prevAlpha =>
    if c.isAlpha then
      (if prevAlpha then c.toLower else c.toUpper) :: pythonTitleGo cs true
    else c :: pythonTitleGo cs false

/-- Python `str.title()` on a string. -/
def pythonTitle (s : String) : String := ⟨pythonTitleGo s.data false⟩

/-- `_determine_stage_type`: the fixed `(previous, next)` milestone lookup
table, defaulting to a wait stage named from the two milestones. -/
def determineStageType (current_milestone next_milestone : String) :
    String × String :=
  let stage_mapping : List ((String × String) × (String × String)) :=
    [ (("created", "assigned"), ("wait", "Requirement Review")),
      (("created", "development_started"), ("wait", "Planning & Assignment")),
      (("created", "review_started"), ("wait", "Planning & Development")),
      (("created", "closed"), ("wait", "Complete Lifecycle")),
      (("assigned", "development_started"), ("work", "Development Planning")),
      (("assigned", "review_started"), ("work", "Development")),
      (("assigned", "closed"), ("work", "Development & Deployment")),
      (("development_started", "review_started"), ("work", "Active Development")),
      (("development_started", "closed"), ("work", "Development & Integration")),
      (("review_started", "closed"), ("wait", "Code Review & Deployment")) ]
  match stage_mapping.lookup (current_milestone, next_milestone) with
  | some v => v
  | none => ("wait", pythonTitle current_milestone ++ " to " ++
      pythonTitle next_milestone)

/-- `_extract_assignment_date`: timestamp of the first `assigned` event. -/
def extractAssignmentDate (events : List TimelineEvent) : Option Int :=
  (events.find? (fun e => e.event == "assigned")).map (fun e => e.created_at)

/-- `_extract_first_commit_date`: minimum author date over the commits whose
author date is present, `None` when there are no commits or no dates. -/
def extractFirstCommitDate (commits : List Commit) : Option Int :=
  if !commits.isEmpty then
    (commits.filterMap (fun c => c.author_date)).min?
  else none

/-- `_extract_first_pr_date`: minimum creation date over the pull requests
carrying one, `None` when there are none. -/
def extractFirstPrDate (prs : List PullRequest) : Option Int :=
  if !prs.isEmpty then
    (prs.filterMap (fun p => p.created_at)).min?
  else none

/-- The `StageSegment(...)` constructor call at the single construction site
inside `analyze_stage_segments`.  The call passes five of the six required
fields and omits `is_work_time`, so the dataclass `__init__` raises
`TypeError: __init__() missing 1 required positional argument:
'is_work_time'`; the call is therefore modelled as the exception it raises. -/
def stageSegmentCall (_stage_name _stage_type : String) (_start_time : Int)
    (_end_time : Int) (_duration_days : ℚ) : Except String StageSegment :=
  Except.error
    "TypeError: __init__() missing 1 required positional argument: is_work_time"

/-- The `for i in range(len(milestones) - 1)` loop of
`analyze_stage_segments`, over the consecutive milestone pairs: determine the
stage type and name, compute the duration, and construct the segment.  A
raised exception aborts the loop. -/
def buildSegments :
    List ((String × Int) × (String × Int)) → Except String (List StageSegment)
  | [] => Except.ok []
  | pc :: rest => do
    let stage := determineStageType pc.1.1 pc.2.1
    let duration := daysQ pc.1.2 pc.2.2
    let seg ← stageSegmentCall stage.2 stage.1 pc.1.2 pc.2.2 duration
    let segs ← buildSegments rest
    pure (seg :: segs)

/-- The milestone list of `analyze_stage_segments`: creation always, then
first assignment, first commit, first pull request and closure when present,
sorted chronologically (Python's stable sort on the timestamp). -/
def issueMilestones (issue : Issue) : List (String × Int) :=
  let assignment_date := extractAssignmentDate issue.events
  let first_commit_date := extractFirstCommitDate issue.commits
  let first_pr_date := extractFirstPrDate issue.prs
  let milestones : List (String × Int) :=
    [("created", issue.created_at)]
    ++ (match assignment_date with
        | some d => [("assigned", d)] | none => [])
    ++ (match first_commit_date with
        | some d => [("development_started", d)] | none => [])
    ++ (match first_pr_date with
        | some d => [("review_started", d)] | none => [])
    ++ (match issue.closed_at with
        | some d => [("closed", d)] | none => [])
  milestones.insertionSort (fun a b => a.2 ≤ b.2)

/-- The body of `analyze_stage_segments` up to its `try` boundary. -/
def analyzeStageSegmentsBody (issue : Issue) :
    Except String (List StageSegment) :=
  let milestones := issueMilestones issue
  buildSegments (milestones.zip milestones.tail)

/-- `analyze_stage_segments`: the whole body runs inside
`try: ... except Exception: return []`, so a raised exception yields the
empty list. -/
def analyzeStageSegments (issue : Issue) : List StageSegment :=
  match analyzeStageSegmentsBody issue with
  | Except.ok segs => segs
  | Except.error _ => []

/-! ## Metrics Aggregator (`calculate_cycle_times`) -/

/-- The `CycleTimeMetrics` dataclass.  The `project_*` fields are omitted
(enrichment payload copied through unchanged, touched by no analyzed
property). -/
structure CycleTimeMetrics where
  issue_number : Int
  title : String
  created_at : Int
  closed_at : Option Int
  work_started_at : Option Int
  lead_time_days : Option ℚ
  cycle_time_days : Option ℚ
  labels : List String
  assignee : Option String
  milestone : Option String
  state : String
  stage_segments : Option (List StageSegment)
  total_work_time_days : Option ℚ
  total_wait_time_days : Option ℚ
  work_efficiency_ratio : Option ℚ
deriving DecidableEq, Repr

/-- Python truthiness of an optional float: `None` and `0.0` are falsy. -/
def pyTruthyQ : Option ℚ → Bool
  | none => false
  | some q => q != 0

/-- Lead time: `(closed_at - created_at)` in days, only when closed. -/
def leadTimeOf (created_at : Int) (closed_at : Option Int) : Option ℚ :=
  match closed_at with
  | some c => some (daysQ created_at c)
  | none => none

/-- Cycle time: `(closed_at - work_started_at)` in days when both are known;
a negative computed value is replaced by `None` (the safety check). -/
def cycleTimeOf (closed_at work_started_at : Option Int) : Option ℚ :=
  match closed_at, work_started_at with
  | some c, some w =>
    let d := daysQ w c
    if d < 0 then none else some d
  | _, _ => none

/-- The segment-totals block of the `calculate_cycle_times` loop body: only
for closed issues, and only when the segment list is truthy (non-empty), sum
the truthy durations of the work and wait segments and form the efficiency
ratio when the grand total is positive. -/
def segmentTotals (stage_segments : Option (List StageSegment)) :
    Option ℚ × Option ℚ × Option ℚ :=
  match stage_segments with
  | some segs =>
    if !segs.isEmpty then
      let work_times : List ℚ := segs.filterMap (fun seg =>
        if seg.stage_type == "work" && pyTruthyQ seg.duration_days then
          seg.duration_days
        else none)
      let wait_times : List ℚ := segs.filterMap (fun seg =>
        if seg.stage_type == "wait" && pyTruthyQ seg.duration_days then
          seg.duration_days
        else none)
      let total_work_time : ℚ := if !work_times.isEmpty then work_times.sum else 0
      let total_wait_time : ℚ := if !wait_times.isEmpty then wait_times.sum else 0
      let work_efficiency_ratio : Option ℚ :=
        if total_work_time + total_wait_time > 0 then
          some (total_work_time / (total_work_time + total_wait_time))
        else none
      (some total_work_time, some total_wait_time, work_efficiency_ratio)
    else (none, none, none)
  | none => (none, none, none)

/-- The body of the `calculate_cycle_times` loop for one issue.  In fast mode
work-start detection is skipped; the interrupt flag is modelled as never
set. -/
def computeMetrics (commit_search_available : Option Bool) (fast_mode : Bool)
    (issue : Issue) : CycleTimeMetrics :=
  let created_at := issue.created_at
  let closed_at := issue.closed_at
  let work_started_at :=
    if fast_mode then none
    else extractWorkStartDate commit_search_available false issue
  let lead_time_days := leadTimeOf created_at closed_at
  let cycle_time_days := cycleTimeOf closed_at work_started_at
  let stage_segments : Option (List StageSegment) :=
    match closed_at with
    | some _ => some (analyzeStageSegments issue)
    | none => none
  let totals := segmentTotals stage_segments
  { issue_number := issue.number
    title := issue.title
    created_at := created_at
    closed_at := closed_at
    work_started_at := work_started_at
    lead_time_days := lead_time_days
    cycle_time_days := cycle_time_days
    labels := issue.labels
    assignee := issue.assignee
    milestone := issue.milestone
    state := issue.state
    stage_segments := stage_segments
    total_work_time_days := totals.1
    total_wait_time_days := totals.2.1
    work_efficiency_ratio := totals.2.2 }

/-- `calculate_cycle_times` over a list of issues (interruption modelled as
absent, so the loop visits every issue in order). -/
def calculateCycleTimes (commit_search_available : Option Bool)
    (fast_mode : Bool) (issues : List Issue) : List CycleTimeMetrics :=
  issues.map (computeMetrics commit_search_available fast_mode)

/-! ## Monthly trend (`_calculate_monthly_cycle_trends`) -/

/-- One row of the `closed_issues` dataframe handed to
`_calculate_monthly_cycle_trends`: the closure month
(`pd.to_datetime(closed_at).dt.to_period('M')`, modelled as an abstract
month index) and the issue's cycle time (possibly `NaN`). -/
structure IssueMonthRow where
  closed_month : Nat
  cycle_time_days : Option ℚ
deriving DecidableEq, Repr

/-- One row of the resulting `monthly_avg` dataframe. -/
structure TrendRow where
  month : Nat
  monthly_avg : ℚ
  issue_count : Nat
  rolling_6m : Option ℚ
deriving DecidableEq, Repr

/-- The `cycle_data` dataframe: rows whose cycle time is not `NaN`, as
(month, cycle time) pairs. -/
def cycleData (rows : List IssueMonthRow) : List (Nat × ℚ) :=
  rows.filterMap (fun r => r.cycle_time_days.map (fun c => (r.closed_month, c)))

/-- `groupby('closed_month')` with `agg(['mean', 'count'])`: the distinct
months in ascending order (pandas sorts group keys), each with the mean and
the count of its cycle-time values. -/
def monthlyAverages (rows : List IssueMonthRow) : List (Nat × ℚ × Nat) :=
  let data := cycleData rows
  let months := (data.map (fun p => p.1)).dedup.insertionSort (fun a b => a ≤ b)
  months.map (fun m =>
    let vals := (data.filter (fun p => p.1 == m)).map (fun p => p.2)
    (m, vals.sum / (vals.length : ℚ), vals.length))

/-- `rolling(window=6, min_periods=3).mean()` over the `monthly_avg` column:
at row `i` the window is the up-to-6 trailing rows ending at `i`, and the
value is present once at least 3 rows are available. -/
def withRolling6m (l : List (Nat × ℚ × Nat)) : List TrendRow :=
  l.enum.map (fun ie =>
    let window := ((l.take (ie.1 + 1)).drop (ie.1 + 1 - 6)).map (fun t => t.2.1)
    { month := ie.2.1
      monthly_avg := ie.2.2.1
      issue_count := ie.2.2.2
      rolling_6m :=
        if 3 ≤ ie.1 + 1 then some (window.sum / (window.length : ℚ))
        else none })

/-- `_calculate_monthly_cycle_trends`: group by closure month, drop months
with fewer than 3 qualifying issues, demand at least 6 remaining months, and
attach the 6-month trailing rolling mean. -/
def monthlyCycleTrends (rows : List IssueMonthRow) : List TrendRow :=
  if (cycleData rows).isEmpty then []
  else
    let monthly_avg := (monthlyAverages rows).filter (fun t => 3 ≤ t.2.2)
    if monthly_avg.length < 6 then []
    else withRolling6m monthly_avg

/-- A month qualifies when at least 3 closed issues with non-null cycle time
closed in it. -/
def qualifiesMonth (rows : List IssueMonthRow) (m : Nat) : Bool :=
  3 ≤ (rows.filter (fun r =>
    r.cycle_time_days.isSome && r.closed_month == m)).length

/-- The number of calendar months containing at least 3 closed issues with
non-null cycle time. -/
def qualifyingMonthCount (rows : List IssueMonthRow) : Nat :=
  (((cycleData rows).map (fun p => p.1)).dedup.filter (qualifiesMonth rows)).length

/-! ## Request layer (`_make_request`) -/

/-- Python's substring containment test `pattern in s`. -/
def pyIn (pattern s : String) : Bool :=
  s.data.tails.any (fun t => pattern.data.isPrefixOf t)

/-- An HTTP response: status code, raw text (consulted by the rate-limit
check) and parsed JSON payload. -/
structure HttpResponse (Data : Type) where
  status : Nat
  text : String
  json : Data

/-- The exceptions `_make_request` can raise: the `InterruptedException`
from the rate-limit sleep and the `requests` error from
`raise_for_status()`. -/
inductive RequestError where
  | interrupted : RequestError
  | httpStatus : Nat → RequestError
deriving DecidableEq, Repr

/-- What a completed `_make_request` produces: the returned data, the cache
state afterwards, and the log lines printed on the way. -/
structure RequestOutcome (Data : Type) where
  data : Data
  cache : Cache Data
  logs : List String

/-- The capability-probe test guarding the silent 422 path:
`'/search/commits' in url and params and params.get('per_page') == 1`
(the integer parameter value rendered as its string form). -/
def isCapabilityProbe (url : String) (params : Params) : Bool :=
  pyIn "/search/commits" url && !params.isEmpty &&
    ((params.lookup "per_page") == some "1")

/-- The 403 block of `_make_request`: a 403 whose text mentions the rate
limit sleeps (raising `InterruptedException` when the interrupt flag is set)
and retries the request once (`retry_resp` is what the retry returns); a 403
without the indicator falls through to `raise_for_status`.  Any other status
passes through unchanged. -/
def rateLimitStep {Data : Type} (interrupted : Bool)
    (resp retry_resp : HttpResponse Data) :
    Except RequestError (HttpResponse Data) :=
  if resp.status == 403 then
    if pyIn "rate limit" (resp.text.toLower) then
      if interrupted then Except.error RequestError.interrupted
      else Except.ok retry_resp
    else Except.ok resp
  else Except.ok resp

/-- `_make_request`: consult the cache; on a miss issue the request (`resp`),
run the 403 rate-limit block, swallow 422s into an empty dict (silently for
the capability probe, after logging otherwise), raise on any other status at
or above 400, and cache 2xx payloads.  `empty_dict` is the `{}` literal the
422 paths return. -/
def makeRequest {Data : Type} (cache : Cache Data) (empty_dict : Data)
    (now : Int) (url : String) (params : Params) (interrupted : Bool)
    (resp retry_resp : HttpResponse Data) :
    Except RequestError (RequestOutcome Data) :=
  let cache_key := getCacheKey url params
  match loadFromCache now cache cache_key with
  | some data => Except.ok ⟨data, cache, []⟩
  | none =>
    match rateLimitStep interrupted resp retry_resp with
    | Except.error e => Except.error e
    | Except.ok response =>
      if response.status == 422 then
        if isCapabilityProbe url params then Except.ok ⟨empty_dict, cache, []⟩
        else Except.ok ⟨empty_dict, cache,
          ["API request failed with 422: " ++ url]⟩
      else if 400 ≤ response.status then
        Except.error (RequestError.httpStatus response.status)
      else
        let data := response.json
        let cache2 :=
          if 200 ≤ response.status && response.status < 300 then
            saveToCache cache cache_key data now
          else cache
        Except.ok ⟨data, cache2, []⟩

/-! ## Concrete sample inputs -/

/-- A closed issue whose only work-start signal is an `assigned` event at
time 50, inside the `[created, closed]` window. -/
def sampleIssue : Issue :=
  { number := 7, title := "sample", created_at := 0, closed_at := some 100,
    state := "closed", assignee := some "alice", milestone := none,
    labels := [],
    events := [{ event := "assigned", created_at := 50, label_name := none }],
    commits := [], prs := [] }

/-- A closed issue with no work-start signals at all: created at time 0 and
closed at time 86400 (exactly one day later). -/
def plainClosedIssue : Issue :=
  { number := 8, title := "plain", created_at := 0, closed_at := some 86400,
    state := "closed", assignee := none, milestone := none,
    labels := [], events := [], commits := [], prs := [] }

/-- Trend input with a single qualifying month (three issues closed in month
0 with known cycle times): fewer than the 6 months the trend demands. -/
def sampleTrendRows : List IssueMonthRow :=
  [{ closed_month := 0, cycle_time_days := some 1 },
   { closed_month := 0, cycle_time_days := some 2 },
   { closed_month := 0, cycle_time_days := some 3 }]

/-! ## Theorems -/

instance : Std.Antisymm (fun (a b : Int) => a ≤ b) :=
  ⟨fun h h2 => le_antisymm h h2⟩

/-- Minimum characterization of `List.min?` on integer lists. -/
theorem intMin?_eq_some_iff {xs : List Int} {a : Int} :
    xs.min? = some a ↔ a ∈ xs ∧ ∀ b ∈ xs, a ≤ b :=
  List.min?_eq_some_iff (fun x => le_refl x) (fun x y => min_choice x y)
    (fun _ _ _ => le_min_iff)

/-- Shared helper: a returned work-start date is a valid candidate and a
lower bound of the valid candidates. -/
theorem extractWorkStartDate_spec (csa : Option Bool) (intr : Bool)
    (issue : Issue) (t : Int)
    (h : extractWorkStartDate csa intr issue = some t) :
    t ∈ workStartCandidates csa issue ∧
    isValidWorkStart issue.created_at issue.closed_at t = true ∧
    ∀ u ∈ workStartCandidates csa issue,
      isValidWorkStart issue.created_at issue.closed_at u = true → t ≤ u := by
  unfold extractWorkStartDate at h
  by_cases hi : intr = true
  · simp [hi] at h
  · simp only [Bool.not_eq_true] at hi
    simp only [hi, if_false, Bool.false_eq_true] at h
    obtain ⟨hmem, hlb⟩ := intMin?_eq_some_iff.1 h
    obtain ⟨hc, hv⟩ := List.mem_filter.1 hmem
    refine ⟨hc, hv, fun u hu huv => ?_⟩
    exact hlb u (List.mem_filter.2 ⟨hu, huv⟩)

/-- Shared helper: the boolean validity filter unfolded into the claim's
bounds. -/
theorem isValidWorkStart_iff (created_at : Int) (closed_at : Option Int)
    (d : Int) :
    isValidWorkStart created_at closed_at d = true ↔
      (created_at ≤ d ∧ ∀ c, closed_at = some c → d ≤ c) := by
  unfold isValidWorkStart
  cases closed_at <;> simp

/-- C1: `extract_work_start_date` returns the minimum of the valid
candidates gathered from the assignment, first-commit and in-progress-label
signals, where a candidate is valid exactly when it is at or after creation
and, for a closed issue, at or before closure; when no candidate is valid
the result is `None`. -/
theorem work_start_is_min_of_valid_candidates (csa : Option Bool)
    (issue : Issue) :
    (∀ d, isValidWorkStart issue.created_at issue.closed_at d = true ↔
      (issue.created_at ≤ d ∧ ∀ c, issue.closed_at = some c → d ≤ c)) ∧
    (∀ t, extractWorkStartDate csa false issue = some t →
      t ∈ workStartCandidates csa issue ∧
      isValidWorkStart issue.created_at issue.closed_at t = true ∧
      ∀ u ∈ workStartCandidates csa issue,
        isValidWorkStart issue.created_at issue.closed_at u = true → t ≤ u) ∧
    (extractWorkStartDate csa false issue = none ↔
      ∀ u ∈ workStartCandidates csa issue,
        isValidWorkStart issue.created_at issue.closed_at u = false) := by
  refine ⟨fun d => isValidWorkStart_iff _ _ d,
    fun t h => extractWorkStartDate_spec csa false issue t h, ?_⟩
  unfold extractWorkStartDate
  simp only [Bool.false_eq_true, if_false]
  rw [List.min?_eq_none_iff, List.filter_eq_nil_iff]
  constructor
  · intro hall u hu
    exact Bool.not_eq_true _ ▸ hall u hu
  · intro hall u hu
    simp [hall u hu]

/-- Witness for C1 at a concrete input: for `sampleIssue` the result is the
assignment date 50, a valid candidate and the minimum of the valid ones. -/
theorem work_start_is_min_of_valid_candidates_witness :
    (50 : Int) ∈ workStartCandidates none sampleIssue ∧
    isValidWorkStart sampleIssue.created_at sampleIssue.closed_at 50 = true ∧
    ∀ u ∈ workStartCandidates none sampleIssue,
      isValidWorkStart sampleIssue.created_at sampleIssue.closed_at u = true →
        (50 : Int) ≤ u :=
  (work_start_is_min_of_valid_candidates none sampleIssue).2.1 50 (by decide)

/-- C5: the page loop of `fetch_issues` halts correctly on the scripted page
sizes [100, 100, 37]: three fetches and 237 items without a limit, and two
fetches with exactly 150 items under an item limit of 150. -/
theorem fetch_issues_pagination_halts :
    (fetchIssues scriptedPages none).2 = 3 ∧
    (fetchIssues scriptedPages none).1.length = 237 ∧
    (fetchIssues scriptedPages (some 150)).2 = 2 ∧
    (fetchIssues scriptedPages (some 150)).1.length = 150 := by
  set_option maxRecDepth 40000 in
  refine ⟨by decide, by decide, by decide, by decide⟩

/-- C6: a `_save_to_cache` of a payload under a key followed by a
`_load_from_cache` of the same key returns the stored payload while the
entry's age (now − storage timestamp) is below the 7-day TTL, and returns
`None` once the age reaches or exceeds the TTL. -/
theorem cache_roundtrip {Data : Type} (cache : Cache Data) (key : String)
    (payload : Data) (store now : Int) (hage : 0 ≤ now - store) :
    (now - store < cacheExpiryDays * 86400 →
      loadFromCache now (saveToCache cache key payload store) key = some payload) ∧
    (cacheExpiryDays * 86400 ≤ now - store →
      loadFromCache now (saveToCache cache key payload store) key = none) := by
  have hfind : List.find? (fun e => e.1 == key)
      ((key, payload, store) :: cache.filter (fun e => e.1 != key)) =
      some (key, payload, store) :=
    List.find?_cons_of_pos _ (by simp)
  constructor
  · intro h
    simp only [cacheExpiryDays] at h
    have hv : isCacheValid now store = true := by
      simp only [isCacheValid, timedeltaDays, cacheExpiryDays, decide_eq_true_eq]
      omega
    simp [loadFromCache, saveToCache, hfind, hv]
  · intro h
    simp only [cacheExpiryDays] at h
    have hv : isCacheValid now store = false := by
      simp only [isCacheValid, timedeltaDays, cacheExpiryDays,
        decide_eq_false_iff_not, not_lt]
      omega
    simp [loadFromCache, saveToCache, hfind, hv]

/-- Witness for C6 at a concrete input: payload `5` stored at time `0` is
returned at time `100` (age below the TTL). -/
theorem cache_roundtrip_witness :
    loadFromCache 100 (saveToCache ([] : Cache Nat) "k" 5 0) "k" = some 5 :=
  (cache_roundtrip [] "k" 5 0 100 (by decide)).1 (by decide)

/-- C7: `_get_cache_key` is order-independent in the request parameters: two
parameter lists holding the same name/value pairs in any order produce the
same cache key. -/
theorem cache_key_order_independent (url : String) (p₁ p₂ : Params)
    (hperm : p₁.Perm p₂) : getCacheKey url p₁ = getCacheKey url p₂ := by
  have hsort : p₁.insertionSort paramLe = p₂.insertionSort paramLe :=
    List.eq_of_perm_of_sorted
      ((List.perm_insertionSort paramLe p₁).trans
        (hperm.trans (List.perm_insertionSort paramLe p₂).symm))
      (List.sorted_insertionSort paramLe p₁)
      (List.sorted_insertionSort paramLe p₂)
  have hlen := hperm.length_eq
  unfold getCacheKey
  rw [hsort]
  cases p₁ <;> cases p₂ <;> simp_all

/-- Witness for C7 at a concrete input: swapping two parameters leaves the
cache key unchanged. -/
theorem cache_key_order_independent_witness :
    getCacheKey "https://api.github.com/x" [("page", "1"), ("state", "all")] =
    getCacheKey "https://api.github.com/x" [("state", "all"), ("page", "1")] :=
  cache_key_order_independent _ _ _ (List.Perm.swap _ _ _)

/-- Shared helper: destructing a non-`None` cycle time into its closure and
work-start timestamps, its value, and its non-negativity. -/
theorem cycleTimeOf_some {c? w? : Option Int} {t : ℚ}
    (h : cycleTimeOf c? w? = some t) :
    ∃ ci wi, c? = some ci ∧ w? = some wi ∧ t = daysQ wi ci ∧ 0 ≤ t ∧ wi ≤ ci := by
  unfold cycleTimeOf at h
  cases c? with
  | none => simp at h
  | some ci =>
    cases w? with
    | none => simp at h
    | some wi =>
      by_cases hd : daysQ wi ci < 0
      · simp [hd] at h
      · simp only [hd, if_false] at h
        push_neg at hd
        obtain rfl := (Option.some_inj.1 h)
        refine ⟨ci, wi, rfl, rfl, rfl, hd, ?_⟩
        have hnum : (0:ℚ) ≤ ((ci - wi : Int) : ℚ) := by
          by_contra hneg
          push_neg at hneg
          have := div_neg_of_neg_of_pos hneg (by norm_num : (0:ℚ) < 24 * 3600)
          unfold daysQ at hd
          exact absurd this (not_lt.2 hd)
        have : (0:Int) ≤ ci - wi := by exact_mod_cast hnum
        omega

/-- Shared helper: a non-`None` lead time comes from a closure timestamp. -/
theorem leadTimeOf_some {a : Int} {c? : Option Int} {q : ℚ}
    (h : leadTimeOf a c? = some q) : ∃ c, c? = some c ∧ q = daysQ a c := by
  unfold leadTimeOf at h
  cases c? with
  | none => simp at h
  | some c => exact ⟨c, rfl, (Option.some_inj.1 h).symm⟩

/-- C2: in every metrics record produced by `calculate_cycle_times`, a
non-null `cycle_time_days` is non-negative and implies that both
`work_started_at` and `closed_at` are known with
`work_started_at ≤ closed_at`; a negative computed value would have been
replaced by `None`. -/
theorem cycle_time_requires_window (csa : Option Bool) (fast : Bool)
    (issues : List Issue) (m : CycleTimeMetrics)
    (hm : m ∈ calculateCycleTimes csa fast issues) (t : ℚ)
    (ht : m.cycle_time_days = some t) :
    0 ≤ t ∧ ∃ w c, m.work_started_at = some w ∧ m.closed_at = some c ∧ w ≤ c := by
  obtain ⟨issue, hmem, rfl⟩ := List.mem_map.1 hm
  simp only [computeMetrics] at ht ⊢
  obtain ⟨ci, wi, hc, hw, htq, hnn, hle⟩ := cycleTimeOf_some ht
  exact ⟨hnn, wi, ci, hw, hc, hle⟩

/-- Witness for C2 at a concrete input: `sampleIssue` yields a cycle time of
50 seconds in days, and its window is witnessed by timestamps 50 and 100. -/
theorem cycle_time_requires_window_witness :
    0 ≤ (50 : ℚ) / (24 * 3600) ∧
    ∃ w c, (computeMetrics none false sampleIssue).work_started_at = some w ∧
      (computeMetrics none false sampleIssue).closed_at = some c ∧ w ≤ c :=
  cycle_time_requires_window none false [sampleIssue]
    (computeMetrics none false sampleIssue)
    (by simp [calculateCycleTimes]) ((50 : ℚ) / (24 * 3600))
    (by
      have hw : extractWorkStartDate none false sampleIssue = some 50 := by decide
      have hcl : sampleIssue.closed_at = some 100 := rfl
      simp only [computeMetrics, Bool.false_eq_true, if_false, hw, hcl, cycleTimeOf]
      norm_num [daysQ])

/-- C10: in every metrics record with both durations present, the cycle time
never exceeds the lead time, because the validity filter keeps the inferred
work start at or after creation while both durations end at closure. -/
theorem cycle_time_le_lead_time (csa : Option Bool) (fast : Bool)
    (issues : List Issue) (m : CycleTimeMetrics)
    (hm : m ∈ calculateCycleTimes csa fast issues) (lt ct : ℚ)
    (hl : m.lead_time_days = some lt) (hc : m.cycle_time_days = some ct) :
    ct ≤ lt := by
  obtain ⟨issue, hmem, rfl⟩ := List.mem_map.1 hm
  simp only [computeMetrics] at hl hc
  obtain ⟨ci, wi, hci, hwi, htq, hnn, hle⟩ := cycleTimeOf_some hc
  obtain ⟨c2, hc2, hlq⟩ := leadTimeOf_some hl
  rw [hci] at hc2
  obtain rfl := (Option.some_inj.1 hc2)
  have hwstart : extractWorkStartDate csa false issue = some wi := by
    by_cases hf : fast = true
    · simp [hf] at hwi
    · simp only [Bool.not_eq_true] at hf
      simpa [hf] using hwi
  have hvalid := (extractWorkStartDate_spec csa false issue wi hwstart).2.1
  have hge : issue.created_at ≤ wi := ((isValidWorkStart_iff _ _ _).1 hvalid).1
  rw [htq, hlq]
  unfold daysQ
  gcongr

/-- Witness for C10 at a concrete input: for `sampleIssue` the cycle time
(50 seconds in days) is at most the lead time (100 seconds in days). -/
theorem cycle_time_le_lead_time_witness :
    (50 : ℚ) / (24 * 3600) ≤ (100 : ℚ) / (24 * 3600) :=
  cycle_time_le_lead_time none false [sampleIssue]
    (computeMetrics none false sampleIssue)
    (by simp [calculateCycleTimes]) ((100 : ℚ) / (24 * 3600))
    ((50 : ℚ) / (24 * 3600))
    (by
      have hcl : sampleIssue.closed_at = some 100 := rfl
      have hcr : sampleIssue.created_at = 0 := rfl
      simp only [computeMetrics, leadTimeOf, hcl, hcr]
      norm_num [daysQ])
    (by
      have hw : extractWorkStartDate none false sampleIssue = some 50 := by decide
      have hcl : sampleIssue.closed_at = some 100 := rfl
      simp only [computeMetrics, Bool.false_eq_true, if_false, hw, hcl, cycleTimeOf]
      norm_num [daysQ])

/-- Shared helper: the first loop iteration of `analyze_stage_segments`
raises the `TypeError` of the incomplete `StageSegment` construction. -/
theorem buildSegments_cons (pc : (String × Int) × (String × Int))
    (rest : List ((String × Int) × (String × Int))) :
    buildSegments (pc :: rest) = Except.error
      "TypeError: __init__() missing 1 required positional argument: is_work_time" :=
  rfl

/-- Shared helper: `analyze_stage_segments` returns the empty list on every
input — with at least two milestones the segment construction raises and the
blanket `except` returns `[]`, and with fewer there is no pair to emit. -/
theorem analyzeStageSegments_eq_nil (issue : Issue) :
    analyzeStageSegments issue = [] := by
  unfold analyzeStageSegments analyzeStageSegmentsBody
  cases h : (issueMilestones issue).zip (issueMilestones issue).tail with
  | nil => simp [h, buildSegments]
  | cons pc rest => simp [h, buildSegments_cons]

/-- C3 (refuted, code bug): the stage segments of every issue form the empty
list, so for the closed issue `plainClosedIssue` (lifetime exactly one day)
the sum of segment durations is 0, not `closure − creation`. -/
theorem stage_segment_sum_zero_not_lifetime :
    (∀ issue : Issue, analyzeStageSegments issue = []) ∧
    plainClosedIssue.closed_at = some 86400 ∧
    ((analyzeStageSegments plainClosedIssue).map
        (fun s => s.duration_days.getD 0)).sum ≠
      daysQ plainClosedIssue.created_at 86400 := by
  refine ⟨analyzeStageSegments_eq_nil, rfl, ?_⟩
  rw [analyzeStageSegments_eq_nil]
  simp [daysQ, plainClosedIssue]
  norm_num

/-- C4 (refuted, code bug): the closed issue `plainClosedIssue` gets no
stage segments at all, so there is no first segment starting at creation and
no last segment ending at closure. -/
theorem stage_segments_missing_for_closed_issue :
    plainClosedIssue.closed_at.isSome = true ∧
    (analyzeStageSegments plainClosedIssue).head? = none := by
  refine ⟨rfl, ?_⟩
  rw [analyzeStageSegments_eq_nil]
  rfl

/-- C8: for a request not served from the cache, writing `final` for the
response left after the 403 rate-limit block: a 422 yields an empty dict
with the cache unchanged — silently for the commit-search capability probe
and after one log line otherwise — and any other status at or above 400
propagates as an exception (so no error response is ever written to the
cache). -/
theorem make_request_422_and_error_propagation {Data : Type}
    (cache : Cache Data) (empty_dict : Data) (now : Int) (url : String)
    (params : Params) (resp retry_resp final : HttpResponse Data)
    (hmiss : loadFromCache now cache (getCacheKey url params) = none)
    (hfinal : rateLimitStep false resp retry_resp = Except.ok final) :
    (final.status = 422 →
      makeRequest cache empty_dict now url params false resp retry_resp =
        Except.ok ⟨empty_dict, cache,
          if isCapabilityProbe url params then []
          else ["API request failed with 422: " ++ url]⟩) ∧
    (400 ≤ final.status → final.status ≠ 422 →
      makeRequest cache empty_dict now url params false resp retry_resp =
        Except.error (RequestError.httpStatus final.status)) := by
  unfold makeRequest
  simp only [hmiss, hfinal]
  constructor
  · intro h422
    simp only [h422]
    by_cases hp : isCapabilityProbe url params <;> simp [hp]
  · intro h400 hne
    have h1 : (final.status == 422) = false := by
      simp [hne]
    simp [h1, h400]

/-- Witness for C8 at a concrete input: a 422 response to the commit-search
capability probe yields an empty dict, an unchanged cache and no log. -/
theorem make_request_422_witness :
    makeRequest ([] : Cache Nat) 0 0 "https://api.github.com/search/commits?q=x"
      [("per_page", "1")] false
      { status := 422, text := "", json := 9 }
      { status := 422, text := "", json := 9 } =
    Except.ok ⟨0, [], []⟩ := by
  have h := (make_request_422_and_error_propagation ([] : Cache Nat) 0 0
    "https://api.github.com/search/commits?q=x" [("per_page", "1")]
    { status := 422, text := "", json := 9 }
    { status := 422, text := "", json := 9 }
    { status := 422, text := "", json := 9 } rfl rfl).1 rfl
  rw [h]
  rw [if_pos (by decide)]

/-- Shared helper: the per-month counts of `cycle_data` agree with counting
the rows with a known cycle time closed in that month. -/
theorem cycleData_month_count (rows : List IssueMonthRow) (m : Nat) :
    ((cycleData rows).filter (fun p => p.1 == m)).length =
    (rows.filter (fun r => r.cycle_time_days.isSome && r.closed_month == m)).length := by
  induction rows with
  | nil => rfl
  | cons r rs ih =>
    cases h : r.cycle_time_days with
    | none => simp [cycleData, List.filterMap_cons, h, List.filter_cons] at ih ⊢
              by_cases hm : (r.closed_month == m) <;> simp [hm, ih, cycleData]
    | some c =>
      simp only [cycleData, List.filterMap_cons, h, Option.map_some]
      by_cases hm : (r.closed_month == m) <;>
      · simp [List.filter_cons, hm, h]
        exact ih

/-- Shared helper: the number of surviving rows of the `issue_count >= 3`
filter is the number of qualifying months. -/
theorem monthlyAverages_qualifying_length (rows : List IssueMonthRow) :
    ((monthlyAverages rows).filter (fun t => 3 ≤ t.2.2)).length =
    qualifyingMonthCount rows := by
  unfold monthlyAverages qualifyingMonthCount
  rw [List.filter_map]
  rw [List.length_map]
  have hcongr : ∀ months : List Nat,
      months.filter ((fun (t : Nat × ℚ × Nat) => decide (3 ≤ t.2.2)) ∘
        (fun m =>
          let vals := ((cycleData rows).filter (fun p => p.1 == m)).map
            (fun p => p.2)
          (m, vals.sum / (vals.length : ℚ), vals.length))) =
      months.filter (qualifiesMonth rows) := by
    intro months
    apply List.filter_congr
    intro m _
    simp only [Function.comp, qualifiesMonth, List.length_map]
    rw [cycleData_month_count]
  rw [hcongr]
  exact ((List.perm_insertionSort _ _).filter (qualifiesMonth rows)).length_eq

/-- Shared helper: destructuring a list of length six. -/
theorem length_eq_six_exists {α : Type} {l : List α} (h : l.length = 6) :
    ∃ a b c d e f, l = [a, b, c, d, e, f] := by
  rcases l with _ | ⟨a, _ | ⟨b, _ | ⟨c, _ | ⟨d, _ | ⟨e, _ | ⟨f, _ | ⟨g, t⟩⟩⟩⟩⟩⟩⟩ <;>
    simp_all

/-- Shared helper: on exactly six monthly rows, the rolling mean at the last
row is the unweighted mean of all six monthly averages. -/
theorem withRolling6m_six (a b c d e f : Nat × ℚ × Nat) :
    (withRolling6m [a, b, c, d, e, f]).length = 6 ∧
    ((withRolling6m [a, b, c, d, e, f]).getLast?.bind
        (fun r => r.rolling_6m)) =
      some ((((withRolling6m [a, b, c, d, e, f]).map
        (fun r => r.monthly_avg)).sum) / 6) := by
  constructor
  · simp [withRolling6m]
  · simp [withRolling6m, List.enum, List.enumFrom]

/-- C9: the monthly trend is empty whenever fewer than 6 months hold at
least 3 closed issues with known cycle time, and with exactly 6 qualifying
months the trailing rolling mean at the 6th month is the unweighted mean of
the 6 monthly means. -/
theorem monthly_trend_gating (rows : List IssueMonthRow) :
    (qualifyingMonthCount rows < 6 → monthlyCycleTrends rows = []) ∧
    (qualifyingMonthCount rows = 6 →
      (monthlyCycleTrends rows).length = 6 ∧
      ((monthlyCycleTrends rows).getLast?.bind (fun r => r.rolling_6m)) =
        some ((((monthlyCycleTrends rows).map
          (fun r => r.monthly_avg)).sum) / 6)) := by
  have hlen := monthlyAverages_qualifying_length rows
  constructor
  · intro hlt
    unfold monthlyCycleTrends
    by_cases hemp : (cycleData rows).isEmpty
    · simp [hemp]
    · simp only [hemp, Bool.false_eq_true, if_false]
      rw [if_pos]
      omega
  · intro heq
    have h6 : ((monthlyAverages rows).filter (fun t => 3 ≤ t.2.2)).length = 6 :=
      hlen.trans heq
    have hne : (cycleData rows).isEmpty = false := by
      by_contra hcontra
      simp only [Bool.not_eq_false] at hcontra
      have hnil : cycleData rows = [] := List.isEmpty_iff.1 hcontra
      rw [show monthlyAverages rows = [] by
        unfold monthlyAverages
        rw [hnil]
        rfl] at h6
      simp at h6
    unfold monthlyCycleTrends
    simp only [hne, Bool.false_eq_true, if_false]
    rw [if_neg (by omega)]
    obtain ⟨a, b, c, d, e, f, hl⟩ := length_eq_six_exists h6
    rw [hl]
    exact withRolling6m_six a b c d e f

/-- Witness for C9 at a concrete input: a single qualifying month yields no
trend. -/
theorem monthly_trend_gating_witness :
    monthlyCycleTrends sampleTrendRows = [] :=
  (monthly_trend_gating sampleTrendRows).1 (by decide)

end CycleTime
